import Mathlib

/-!
Verification of the git-anticipator conflict-anticipation engine.

Each git subprocess invocation in the source goes through
`executeGitCommand`, which returns the trimmed stdout on exit 0 and the
failure signal `null` otherwise.  We embed the outcome of each such
invocation as an `Option String` (`none` = the failure signal) and the
functions of the source as pure Lean functions over records that hold the
outcomes of the git probes they perform.
-/

/-- `String.prototype.trim` — strip whitespace from both ends.  Defined
on the character list so that it evaluates inside the kernel (the library
`String.trim` is substring-based and does not reduce). -/
def trimChars (s : String) : String :=
  String.mk (((s.data.dropWhile Char.isWhitespace).reverse.dropWhile Char.isWhitespace).reverse)

/-- Accumulator-based splitting of a character list at `'\n'`. -/
def splitLinesAux : List Char → List Char → List String
  | [], acc => [String.mk acc.reverse]
  | c :: cs, acc =>
    if c == '\n' then String.mk acc.reverse :: splitLinesAux cs []
    else splitLinesAux cs (c :: acc)

/-- `s.split('\n')` — the only split the source performs.  Like the
JavaScript original, `"".split('\n')` is `[""]` and a trailing newline
produces a trailing empty piece. -/
def splitLines (s : String) : List String :=
  splitLinesAux s.data []

/-- JavaScript truthiness of a `string | null` value: `null` and the empty
string are falsy, every other string is truthy. -/
def jsTruthy : Option String → Bool
  | none => false
  | some s => s != ""

/-- The test `!x || x.trim() === ''` used by the source on a
`string | null` value. -/
def jsBlank : Option String → Bool
  | none => true
  | some s => trimChars s == ""

/-- Does the character list start with the given pattern? -/
def charsStartWith : List Char → List Char → Bool
  | _, [] => true
  | [], _ :: _ => false
  | c :: cs, d :: ds => c == d && charsStartWith cs ds

/-- Index of the first occurrence of a pattern in a character list
(`String.prototype.indexOf`), `none` when absent. -/
def findSubstrIdx : List Char → List Char → Option Nat
  | [], pat => if charsStartWith [] pat then some 0 else none
  | c :: rest, pat =>
    if charsStartWith (c :: rest) pat then some 0
    else (findSubstrIdx rest pat).map (· + 1)

/-- `s.includes(pat)` — substring containment, on the underlying
character lists. -/
def containsSubstr (s pat : String) : Bool :=
  (findSubstrIdx s.data pat.data).isSome

/-- `s.startsWith(pat)`. -/
def strStartsWith (s pat : String) : Bool :=
  charsStartWith s.data pat.data

/-- `s.endsWith(pat)`. -/
def strEndsWith (s pat : String) : Bool :=
  charsStartWith s.data.reverse pat.data.reverse

/-- Drop the first `n` characters of a string. -/
def strDrop (s : String) (n : Nat) : String :=
  String.mk (s.data.drop n)

/-- The conflict-marker scan shared by both classifier copies:
`out.includes('<<<<<<<') || out.includes('>>>>>>>') || out.includes('=======')`. -/
def hasConflictMarkers (s : String) : Bool :=
  containsSubstr s "<<<<<<<" || containsSubstr s ">>>>>>>" || containsSubstr s "======="

/-- Insertion-order deduplication, the behaviour of iterating a JavaScript
`Set` built from a list (`new Set(xs)` keeps the first occurrence of each
element). -/
def dedupFirstAux [DecidableEq α] (seen : List α) : List α → List α
  | [] => []
  | x :: xs =>
    if x ∈ seen then dedupFirstAux seen xs
    else x :: dedupFirstAux (x :: seen) xs

/-- `[...new Set(xs)]`. -/
def dedupFirst [DecidableEq α] (l : List α) : List α :=
  dedupFirstAux [] l

theorem mem_dedupFirstAux [DecidableEq α] (a : α) (seen l : List α) :
    a ∈ dedupFirstAux seen l ↔ a ∈ l ∧ a ∉ seen := by
  induction l generalizing seen with
  | nil => simp [dedupFirstAux]
  | cons x xs ih =>
    by_cases hx : x ∈ seen
    · simp only [dedupFirstAux, hx, if_true, ih, List.mem_cons]
      constructor
      · rintro ⟨h1, h2⟩; exact ⟨Or.inr h1, h2⟩
      · rintro ⟨h1 | h1, h2⟩
        · exact absurd (h1 ▸ hx) h2
        · exact ⟨h1, h2⟩
    · simp only [dedupFirstAux, hx, if_false, List.mem_cons, ih]
      constructor
      · rintro (h | ⟨h1, h2⟩)
        · exact ⟨Or.inl h, h ▸ hx⟩
        · rw [not_or] at h2
          exact ⟨Or.inr h1, h2.2⟩
      · rintro ⟨h1 | h1, h2⟩
        · exact Or.inl h1
        · by_cases hax : a = x
          · exact Or.inl hax
          · exact Or.inr ⟨h1, not_or.mpr ⟨hax, h2⟩⟩

theorem mem_dedupFirst [DecidableEq α] (a : α) (l : List α) :
    a ∈ dedupFirst l ↔ a ∈ l := by
  simp [dedupFirst, mem_dedupFirstAux]

/-!
## CommandRunner — `src/command/command.ts`, `executeGitCommand`

The runner first checks that the working directory exists and contains a
`.git` entry; it then runs `execSync` with a 30s timeout inside a
`try`/`catch`.  A successful run returns `result.toString().trim()`; any
error (nonzero exit, timeout, spawn failure) lands in the `catch`, which
logs stderr/stdout and returns `null` — nothing is rethrown.
-/

/-- Outcome of the underlying `execSync` call: the raw stdout of an
exit-0 run, or any error (nonzero exit, timeout, spawn failure). -/
inductive ExecOutcome where
  | ok (stdout : String)
  | err
deriving DecidableEq

/-- `executeGitCommand` from `src/command/command.ts`.  `cwdOnDisk` and
`gitDirOnDisk` are the results of the two `fs.existsSync` pre-checks. -/
def executeGitCommand (cwdOnDisk gitDirOnDisk : Bool) (run : ExecOutcome) : Option String :=
  if !cwdOnDisk then none
  else if !gitDirOnDisk then none
  else
    match run with
    | .ok stdout => some (trimChars stdout)
    | .err => none

/-!
## ConflictClassifier — `src/conflictScanner/detectConflicts.ts`, `hasRealConflict`

Per candidate path the classifier issues three `cat-file -e` existence
probes, up to three `show` content reads, and one `merge-tree` probe.
A `FileProbe` records their outcomes for one path.
-/

/-- Outcomes of the per-candidate git probes made by `hasRealConflict`.
`existsIn…` is `executeGitCommand('git cat-file -e …') !== null`;
`show…` is the `git show …:path` result (`none` = command failed);
`mergeTree` is the `git merge-tree base current target` result. -/
structure FileProbe where
  existsInBase : Bool
  existsInCurrent : Bool
  existsInTarget : Bool
  showBase : Option String
  showCurrent : Option String
  showTarget : Option String
  mergeTree : Option String
deriving DecidableEq

/-- `fileExistsInBase ? executeGitCommand(show …) : ''` — the effective
base content used in the comparisons. -/
def effectiveBase (p : FileProbe) : Option String :=
  if p.existsInBase then p.showBase else some ""

/-- Effective current-branch content (see `effectiveBase`). -/
def effectiveCurrent (p : FileProbe) : Option String :=
  if p.existsInCurrent then p.showCurrent else some ""

/-- Effective target-branch content (see `effectiveBase`). -/
def effectiveTarget (p : FileProbe) : Option String :=
  if p.existsInTarget then p.showTarget else some ""

/-- `hasRealConflict` from `src/conflictScanner/detectConflicts.ts`
(lines 384–445).  The surrounding `try`/`catch` returns `true` on an
exception; none of the operations in the body can throw, since
`executeGitCommand` already catches every subprocess error, so the
embedding is the body itself. -/
def hasRealConflict (p : FileProbe) : Bool :=
  if !p.existsInBase && (p.existsInCurrent != p.existsInTarget) then true
  else if !p.existsInCurrent && !p.existsInTarget then false
  else
    let baseContent := effectiveBase p
    let currentContent := effectiveCurrent p
    let targetContent := effectiveTarget p
    if currentContent == targetContent then false
    else if baseContent == currentContent && baseContent != targetContent then false
    else if baseContent == targetContent && baseContent != currentContent then false
    else if (match p.mergeTree with
             | some s => s != "" && hasConflictMarkers s
             | none => false) then true
    else true

/-!
## Drifted classifier copy — `src/conflictDetector.ts`, `hasRealConflicts`

This copy looks only at the `merge-tree` probe: a falsy result (failure
or empty output) yields `false`; conflict markers yield `true`; otherwise
the verdict is whether any output line contains the candidate path as a
substring.
-/

/-- `hasRealConflicts` from `src/conflictDetector.ts` (lines 111–145).
`mergeResult` is the `git merge-tree base current target` outcome. -/
def hasRealConflicts (filePath : String) (mergeResult : Option String) : Bool :=
  if !jsTruthy mergeResult then false
  else
    let s := mergeResult.getD ""
    if hasConflictMarkers s then true
    else (splitLines s).any (fun line => containsSubstr line filePath)

/-!
## Theorems about the classifier copies
-/

/-- Claim C6: every git subprocess invocation satisfies the exit-code
contract — exit 0 returns stdout with surrounding whitespace trimmed,
any failure (nonzero exit, timeout) returns the failure signal `none`,
and every invocation returns one of these two values (no git failure
escapes the runner as an exception). -/
theorem executeGitCommand_exit_code_contract :
    (∀ out : String, executeGitCommand true true (ExecOutcome.ok out) = some (trimChars out)) ∧
    (∀ (cwdOnDisk gitDirOnDisk : Bool),
      executeGitCommand cwdOnDisk gitDirOnDisk ExecOutcome.err = none) ∧
    (∀ (cwdOnDisk gitDirOnDisk : Bool) (run : ExecOutcome),
      executeGitCommand cwdOnDisk gitDirOnDisk run = none ∨
      ∃ out : String, run = ExecOutcome.ok out ∧
        executeGitCommand cwdOnDisk gitDirOnDisk run = some (trimChars out)) := by
  refine ⟨fun out => rfl, fun c g => by cases c <;> cases g <;> rfl, fun c g r => ?_⟩
  cases c <;> cases g <;> cases r <;> simp [executeGitCommand]

/-- Claim C3: for a candidate present at base, current and target, if
exactly one side's content differs from the merge-base content, the
classifier returns `false` (NoConflict), never ContentConflict. -/
theorem hasRealConflict_one_sided_no_conflict (p : FileProbe)
    (hb : p.existsInBase = true) (hc : p.existsInCurrent = true)
    (ht : p.existsInTarget = true)
    (h : (p.showBase = p.showCurrent ∧ p.showBase ≠ p.showTarget) ∨
         (p.showBase = p.showTarget ∧ p.showBase ≠ p.showCurrent)) :
    hasRealConflict p = false := by
  rcases h with ⟨h1, h2⟩ | ⟨h1, h2⟩
  · have hct : p.showCurrent ≠ p.showTarget := fun hE => h2 (h1.trans hE)
    simp [hasRealConflict, effectiveBase, effectiveCurrent, effectiveTarget,
      hb, hc, ht, h1, h2, hct]
  · have hct : (p.showCurrent == p.showTarget) = false := by
      rw [beq_eq_false_iff_ne]
      exact fun hE => h2 (h1.trans hE.symm)
    have htc : p.showTarget ≠ p.showCurrent := fun hE => h2 (h1.trans hE)
    have hbc : (p.showBase == p.showCurrent) = false := by
      rw [beq_eq_false_iff_ne]; exact h2
    simp [hasRealConflict, effectiveBase, effectiveCurrent, effectiveTarget,
      hb, hc, ht, h1, hct, htc, hbc]

/-- Witness for C3 at a concrete one-sided change
(base "1", current "1", target "2"). -/
theorem hasRealConflict_one_sided_no_conflict_witness :
    ((true, true, true) = (true, true, true) ∧
      (some "1" : Option String) = some "1" ∧ (some "1" : Option String) ≠ some "2") ∧
    hasRealConflict ⟨true, true, true, some "1", some "1", some "2", none⟩ = false :=
  ⟨⟨rfl, rfl, by decide⟩,
    hasRealConflict_one_sided_no_conflict
      ⟨true, true, true, some "1", some "1", some "2", none⟩
      rfl rfl rfl (Or.inl ⟨rfl, by decide⟩)⟩

/-- Claim C4: when the current and target contents are identical strings
the classifier returns `false` (NoConflict) regardless of the base
content, the base existence flag and the merge-tree probe — i.e. the
convergent-edit check fires before the one-sided checks and before the
probe. -/
theorem hasRealConflict_convergent_no_conflict (p : FileProbe) (s : String)
    (hc : p.existsInCurrent = true) (ht : p.existsInTarget = true)
    (hcs : p.showCurrent = some s) (hts : p.showTarget = some s) :
    hasRealConflict p = false := by
  simp [hasRealConflict, effectiveCurrent, effectiveTarget, hc, ht, hcs, hts]

/-- Witness for C4: convergent edit (both sides "2") with a base that
differs on both sides and a merge-tree output full of conflict markers;
the classifier still answers NoConflict. -/
theorem hasRealConflict_convergent_no_conflict_witness :
    ((true, true) = (true, true) ∧
      (some "2" : Option String) = some "2") ∧
    hasRealConflict
      ⟨true, true, true, some "1", some "2", some "2",
        some "<<<<<<< ours\n=======\n>>>>>>> theirs"⟩ = false :=
  ⟨⟨rfl, rfl⟩,
    hasRealConflict_convergent_no_conflict
      ⟨true, true, true, some "1", some "2", some "2",
        some "<<<<<<< ours\n=======\n>>>>>>> theirs"⟩
      "2" rfl rfl rfl rfl⟩

/-- Claim C1 (amended): in the `detectConflicts.ts` classifier, whenever
the three effective contents are pairwise distinct (both sides diverged
from the base and from each other), the verdict is `true`
(ContentConflict) for every merge-tree outcome — unavailable (`none`),
empty, markerless or markered. -/
theorem hasRealConflict_diverged_defaults_conflicted (p : FileProbe)
    (h1 : effectiveCurrent p ≠ effectiveTarget p)
    (h2 : effectiveBase p ≠ effectiveCurrent p)
    (h3 : effectiveBase p ≠ effectiveTarget p) :
    hasRealConflict p = true := by
  have hcc : (effectiveCurrent p == effectiveTarget p) = false := by
    rw [beq_eq_false_iff_ne]; exact h1
  have hbc : (effectiveBase p == effectiveCurrent p) = false := by
    rw [beq_eq_false_iff_ne]; exact h2
  have hbt : (effectiveBase p == effectiveTarget p) = false := by
    rw [beq_eq_false_iff_ne]; exact h3
  cases hca : (!p.existsInBase && (p.existsInCurrent != p.existsInTarget))
  case true => simp [hasRealConflict, hca]
  case false =>
    have hnb : (!p.existsInCurrent && !p.existsInTarget) = false := by
      cases hcur : p.existsInCurrent
      · cases htar : p.existsInTarget
        · exact absurd
            (show effectiveCurrent p = effectiveTarget p by
              simp [effectiveCurrent, effectiveTarget, hcur, htar]) h1
        · simp
      · simp
    simp [hasRealConflict, hca, hnb, hcc, hbc, hbt]

/-- Witness for C1's amended theorem: pairwise-distinct contents with an
unavailable merge-tree probe still yield ContentConflict. -/
theorem hasRealConflict_diverged_defaults_conflicted_witness :
    (effectiveCurrent ⟨true, true, true, some "1", some "2", some "3", none⟩ ≠
        effectiveTarget ⟨true, true, true, some "1", some "2", some "3", none⟩ ∧
      effectiveBase ⟨true, true, true, some "1", some "2", some "3", none⟩ ≠
        effectiveCurrent ⟨true, true, true, some "1", some "2", some "3", none⟩ ∧
      effectiveBase ⟨true, true, true, some "1", some "2", some "3", none⟩ ≠
        effectiveTarget ⟨true, true, true, some "1", some "2", some "3", none⟩) ∧
    hasRealConflict ⟨true, true, true, some "1", some "2", some "3", none⟩ = true :=
  ⟨⟨by decide, by decide, by decide⟩,
    hasRealConflict_diverged_defaults_conflicted
      ⟨true, true, true, some "1", some "2", some "3", none⟩
      (by decide) (by decide) (by decide)⟩

/-- Counterexample to claim C1 as stated: the `conflictDetector.ts` copy
of the classifier (`hasRealConflicts`) answers `false` (no conflict) when
the merge-tree probe is unavailable (`none`), and also when the probe
succeeds without conflict markers and without the candidate path in its
output — it never consults the three contents, so this happens for
diverged candidates too. -/
theorem hasRealConflicts_probe_failure_not_conflicted :
    hasRealConflicts "file.txt" none = false ∧
    hasRealConflicts "file.txt" (some "clean merge output") = false := by
  constructor
  · rfl
  · decide

/-- Claim C10: in the `conflictDetector.ts` classifier, when the
merge-tree probe succeeds (nonempty output) without any of the three
conflict-marker tokens, the candidate is classified conflicted exactly
when some output line contains the candidate path as a substring. -/
theorem hasRealConflicts_markerless_path_substring (filePath s : String)
    (hs : s ≠ "") (hm : hasConflictMarkers s = false) :
    (hasRealConflicts filePath (some s) = true ↔
      ∃ line ∈ splitLines s, containsSubstr line filePath = true) := by
  simp [hasRealConflicts, jsTruthy, hs, hm, List.any_eq_true]

/-- Witness for C10: a markerless probe output that merely mentions
`src/app.ts` on a line makes that file report conflicted. -/
theorem hasRealConflicts_markerless_path_substring_witness :
    ("changed in both\nsrc/app.ts modified" ≠ "" ∧
      hasConflictMarkers "changed in both\nsrc/app.ts modified" = false) ∧
    hasRealConflicts "src/app.ts" (some "changed in both\nsrc/app.ts modified") = true :=
  ⟨⟨by decide, by decide⟩,
    (hasRealConflicts_markerless_path_substring "src/app.ts"
        "changed in both\nsrc/app.ts modified" (by decide) (by decide)).mpr
      ⟨"src/app.ts modified", by decide, by decide⟩⟩

/-!
## BranchResolver — two drifted copies

`src/conflictDetector.ts` (lines 50–80) verifies the name directly with
`git rev-parse --verify`, then `origin/<name>`, then scans `git branch -a`
output.  `src/utils/utils.ts` (lines 15–50) instead matches the name
against the local and remote branch lists.
-/

/-- `s.replace(pat, repl)` with a plain-string pattern — JavaScript
replaces only the first occurrence. -/
def replaceFirst (s pat repl : String) : String :=
  match findSubstrIdx s.data pat.data with
  | some i => String.mk (s.data.take i ++ repl.data ++ s.data.drop (i + pat.data.length))
  | none => s

/-- `line.trim().replace('* ', '').replace('remotes/', '')` from the
`git branch -a` scan in `conflictDetector.ts`. -/
def cleanBranchLine (line : String) : String :=
  replaceFirst (replaceFirst (trimChars line) "* " "") "remotes/" ""

/-- Git probe outcomes used by the `conflictDetector.ts` resolver:
`verify ref` is whether `git rev-parse --verify ref` exits 0, and
`branchA` is the `git branch -a` output. -/
structure RefOracle where
  verify : String → Bool
  branchA : Option String

/-- The `git branch -a` scan loop of `normalizeBranchName`
(`conflictDetector.ts`): first cleaned line that matches the name (as a
`/<name>` suffix or exactly) and verifies, mapped to its
`origin/`-qualified form when not already qualified. -/
def scanBranchLines (o : RefOracle) (branchName : String) : List String → Option String
  | [] => none
  | line :: rest =>
    let cleanLine := cleanBranchLine line
    if strEndsWith cleanLine ("/" ++ branchName) || cleanLine == branchName then
      let foundBranch :=
        if strStartsWith cleanLine "origin/" then cleanLine else "origin/" ++ cleanLine
      if o.verify foundBranch then some foundBranch
      else scanBranchLines o branchName rest
    else scanBranchLines o branchName rest

/-- `normalizeBranchName` from `src/conflictDetector.ts` (lines 50–80). -/
def normalizeBranchName (o : RefOracle) (branchName : String) : Option String :=
  if o.verify branchName then some branchName
  else
    let remoteBranch := "origin/" ++ branchName
    if o.verify remoteBranch then some remoteBranch
    else if jsTruthy o.branchA then
      scanBranchLines o branchName (splitLines (o.branchA.getD ""))
    else none

/-- `.replace(/^\*\s*/, '')` — strip one leading `*` and the whitespace
after it. -/
def stripStar (s : String) : String :=
  if strStartsWith s "*" then String.mk ((s.data.drop 1).dropWhile Char.isWhitespace)
  else s

/-- Branch list outcomes used by the `utils.ts` resolver:
`git branch --format="%(refname:short)"` and
`git branch -r --format="%(refname:short)"`. -/
structure BranchListOracle where
  localBranches : Option String
  remoteBranches : Option String
deriving DecidableEq

/-- `normalizeBranchName` from `src/utils/utils.ts` (lines 15–50). -/
def utilsNormalizeBranchName (o : BranchListOracle) (branchName : String) : Option String :=
  let localResult :=
    if jsTruthy o.localBranches then
      let branches := (splitLines (o.localBranches.getD "")).map (fun b => stripStar (trimChars b))
      if branches.contains branchName then some branchName else none
    else none
  match localResult with
  | some r => some r
  | none =>
    if jsTruthy o.remoteBranches then
      let branches := (splitLines (o.remoteBranches.getD "")).map trimChars
      let originBranch := "origin/" ++ branchName
      if branches.contains originBranch then some originBranch
      else
        match branches.find? (fun b => strEndsWith b ("/" ++ branchName)) with
        | some matchingBranch => if matchingBranch == "" then none else some matchingBranch
        | none => none
    else none

/-- Claim C5 (amended): the `conflictDetector.ts` resolver is idempotent
on any name that verifies directly — in particular on an existing,
already-fully-qualified `origin/<name>` ref — because its first step
checks the name itself with `git rev-parse --verify`. -/
theorem normalizeBranchName_verified_ref_unchanged (o : RefOracle) (name : String)
    (h : o.verify name = true) :
    normalizeBranchName o name = some name := by
  simp [normalizeBranchName, h]

/-- Witness for C5's amended theorem: a repository in which exactly the
refs `main`, `origin/main` and `origin/dev` verify resolves the
fully-qualified `origin/main` to itself. -/
theorem normalizeBranchName_verified_ref_unchanged_witness :
    (fun r => r == "main" || r == "origin/main" || r == "origin/dev") "origin/main" = true ∧
    normalizeBranchName
      ⟨fun r => r == "main" || r == "origin/main" || r == "origin/dev",
        some "* feature\n  main\n  remotes/origin/main\n  remotes/origin/dev"⟩
      "origin/main" = some "origin/main" :=
  ⟨by decide,
    normalizeBranchName_verified_ref_unchanged
      ⟨fun r => r == "main" || r == "origin/main" || r == "origin/dev",
        some "* feature\n  main\n  remotes/origin/main\n  remotes/origin/dev"⟩
      "origin/main" (by decide)⟩

/-- Counterexample to claim C5 as stated: the `utils.ts` resolver copy is
not idempotent on fully-qualified refs.  With local branches `main`,
`dev` and remote branches `origin/main`, `origin/dev` — so `origin/main`
exists — resolving `origin/main` returns `none` (the branch lists contain
no entry equal to `origin/origin/main` and none ending in
`/origin/main`), not the ref unchanged. -/
theorem utilsNormalizeBranchName_not_idempotent :
    "origin/main" ∈ (splitLines "origin/main\norigin/dev").map trimChars ∧
    utilsNormalizeBranchName ⟨some "main\ndev", some "origin/main\norigin/dev"⟩
      "origin/main" = none := by
  constructor
  · decide
  · decide

/-!
## ChangeSetDiffer — `src/conflictScanner/detectConflicts.ts`

`detectPotentialConflicts` (lines 188–300): a special case hands
local-vs-remote comparisons to `detectLocalRemoteConflicts`; otherwise
three `cat-file -e` existence checks guard a three-attempt retry ladder
of `git diff --name-only` invocations, whose surviving outputs are split,
trimmed, filtered (empty, `#`-prefixed and on-disk-directory paths) and
intersected.
-/

/-- `targetBranch.replace(/^origin\//, '')`. -/
def stripOrigin (s : String) : String :=
  if strStartsWith s "origin/" then strDrop s 7 else s

/-- Git invocation outcomes consumed by `detectLocalRemoteConflicts`
(lines 111–177): the two `rev-parse` tip lookups, the `merge-base`, and
the two `diff --name-only` runs. -/
structure LocalRemoteOracle where
  localCommit : Option String
  remoteCommit : Option String
  mergeBase : Option String
  localChanges : Option String
  remoteChanges : Option String
deriving DecidableEq

/-- `detectLocalRemoteConflicts` from
`src/conflictScanner/detectConflicts.ts` (lines 111–177). -/
def detectLocalRemoteConflicts (o : LocalRemoteOracle) : List String :=
  if !jsTruthy o.localCommit || !jsTruthy o.remoteCommit then []
  else if o.localCommit == o.remoteCommit then []
  else if !jsTruthy o.mergeBase then []
  else if !jsTruthy o.localChanges && !jsTruthy o.remoteChanges then []
  else if jsBlank o.localChanges then []
  else if jsBlank o.remoteChanges then []
  else
    let localFiles :=
      dedupFirst (((splitLines (o.localChanges.getD "")).map trimChars).filter (fun f => f != ""))
    let remoteFiles :=
      dedupFirst (((splitLines (o.remoteChanges.getD "")).map trimChars).filter (fun f => f != ""))
    localFiles.filter (fun file => remoteFiles.contains file)

/-- Git invocation outcomes consumed by `detectPotentialConflicts`:
branch names, the delegated local-vs-remote probes, the three
`cat-file -e` existence checks, the three diff attempts (plain range,
quoted refs, full SHAs) for each side, the `rev-parse` SHA lookups of
attempt three, and the on-disk directory status of each path. -/
structure DiffOracle where
  currentBranch : String
  targetBranch : String
  localRemote : LocalRemoteOracle
  catFileBase : Option String
  catFileCurrent : Option String
  catFileTarget : Option String
  diffPlainCurrent : Option String
  diffPlainTarget : Option String
  diffQuotedCurrent : Option String
  diffQuotedTarget : Option String
  revParseBase : Option String
  revParseCurrent : Option String
  revParseTarget : Option String
  diffShaCurrent : Option String
  diffShaTarget : Option String
  isDir : String → Bool

/-- The three-attempt retry ladder of `detectPotentialConflicts` (lines
221–247): attempt 2 (quoted refs) overwrites both results whenever either
attempt-1 result is falsy, and attempt 3 (full SHAs) overwrites both
whenever either attempt-2 result is falsy and all three `rev-parse`
lookups are truthy. -/
def selectChanges (o : DiffOracle) : Option String × Option String :=
  let changes1 := (o.diffPlainCurrent, o.diffPlainTarget)
  let changes2 :=
    if !jsTruthy changes1.1 || !jsTruthy changes1.2 then
      (o.diffQuotedCurrent, o.diffQuotedTarget)
    else changes1
  if !jsTruthy changes2.1 || !jsTruthy changes2.2 then
    if jsTruthy o.revParseBase && jsTruthy o.revParseCurrent && jsTruthy o.revParseTarget then
      (o.diffShaCurrent, o.diffShaTarget)
    else changes2
  else changes2

/-- `new Set(changes.split('\n').map(f => f.trim()).filter(f => f !== ''
&& !f.startsWith('#') && !isDirectory(f, wsFolderPath)))` — the changed
file set built from one diff output (lines 272–285). -/
def changedFileSet (o : DiffOracle) (changes : String) : List String :=
  dedupFirst (((splitLines changes).map trimChars).filter
    (fun f => f != "" && !(strStartsWith f "#") && !(o.isDir f)))

/-- `detectPotentialConflicts` from
`src/conflictScanner/detectConflicts.ts` (lines 188–300). -/
def detectPotentialConflicts (o : DiffOracle) : List String :=
  if o.currentBranch == stripOrigin o.targetBranch then
    detectLocalRemoteConflicts o.localRemote
  else if o.catFileBase == none then []
  else if o.catFileCurrent == none then []
  else if o.catFileTarget == none then []
  else
    let currentChanges := (selectChanges o).1
    let targetChanges := (selectChanges o).2
    if currentChanges.isNone && targetChanges.isNone then []
    else if jsBlank currentChanges then []
    else if jsBlank targetChanges then []
    else
      let currentFiles := changedFileSet o (currentChanges.getD "")
      let targetFiles := changedFileSet o (targetChanges.getD "")
      currentFiles.filter (fun file => targetFiles.contains file)

/-!
## Enhanced detection — `detectConflictFiles` (lines 312–371)

Method 1 lists the three-dot diff `current...target` and filters it
through `hasRealConflict`; only when that diff fails does method 2
intersect the two two-dot diffs.  Neither method applies the
directory filter of `detectPotentialConflicts`.
-/

/-- Git invocation outcomes consumed by `detectConflictFiles`: the
three-dot diff, the two two-dot diffs plus the alternative target query,
the per-file probes feeding `hasRealConflict` — and the on-disk directory
status of each path, which this function never consults. -/
structure ConflictFilesOracle where
  threeDotDiff : Option String
  currentModified : Option String
  targetModified : Option String
  altTargetDiff : Option String
  probe : String → FileProbe
  isDir : String → Bool

/-- `detectConflictFiles` from
`src/conflictScanner/detectConflicts.ts` (lines 312–371). -/
def detectConflictFiles (o : ConflictFilesOracle) : List String :=
  match o.threeDotDiff with
  | some conflictCheck =>
    let potentialConflicts := (splitLines conflictCheck).filter (fun f => trimChars f != "")
    potentialConflicts.filter (fun file => hasRealConflict (o.probe file))
  | none =>
    if !jsTruthy o.currentModified then []
    else if !jsTruthy o.targetModified && !jsTruthy o.altTargetDiff then []
    else
      let currentFiles :=
        dedupFirst ((splitLines (o.currentModified.getD "")).filter (fun f => trimChars f != ""))
      let targetFiles :=
        dedupFirst ((splitLines (o.targetModified.getD "")).filter (fun f => trimChars f != ""))
      currentFiles.filter
        (fun file => targetFiles.contains file && hasRealConflict (o.probe file))

theorem isDir_false_of_mem_changedFileSet (o : DiffOracle) (c f : String)
    (hf : f ∈ changedFileSet o c) : o.isDir f = false := by
  unfold changedFileSet at hf
  rw [mem_dedupFirst, List.mem_filter] at hf
  obtain ⟨-, hp⟩ := hf
  simp only [Bool.and_eq_true, Bool.not_eq_true'] at hp
  exact hp.2

/-- Claim C8 (amended): every path in a change-set intersection produced
by the non-delegated path of `detectPotentialConflicts` has been filtered
against the on-disk directory check — no member of its result is a
directory. -/
theorem detectPotentialConflicts_excludes_directories (o : DiffOracle) (f : String)
    (hbranch : (o.currentBranch == stripOrigin o.targetBranch) = false)
    (hf : f ∈ detectPotentialConflicts o) : o.isDir f = false := by
  unfold detectPotentialConflicts at hf
  rw [hbranch] at hf
  simp only [Bool.false_eq_true, if_false] at hf
  split at hf
  · exact absurd hf (List.not_mem_nil f)
  split at hf
  · exact absurd hf (List.not_mem_nil f)
  split at hf
  · exact absurd hf (List.not_mem_nil f)
  split at hf
  · exact absurd hf (List.not_mem_nil f)
  split at hf
  · exact absurd hf (List.not_mem_nil f)
  split at hf
  · exact absurd hf (List.not_mem_nil f)
  rw [List.mem_filter] at hf
  exact isDir_false_of_mem_changedFileSet o _ f hf.1

/-- Witness for C8's amended theorem: with both diffs listing `a.txt` and
the directory `somedir`, the differ returns a set containing `a.txt`, and
the theorem certifies `a.txt` is not a directory. -/
theorem detectPotentialConflicts_excludes_directories_witness :
    (((⟨"feature", "main", ⟨none, none, none, none, none⟩, some "", some "", some "",
        some "a.txt\nsomedir", some "a.txt\nsomedir", none, none, none, none, none,
        none, none, fun d => d == "somedir"⟩ : DiffOracle).currentBranch ==
      stripOrigin "main") = false ∧
      "a.txt" ∈ detectPotentialConflicts
        ⟨"feature", "main", ⟨none, none, none, none, none⟩, some "", some "", some "",
          some "a.txt\nsomedir", some "a.txt\nsomedir", none, none, none, none, none,
          none, none, fun d => d == "somedir"⟩) ∧
    (⟨"feature", "main", ⟨none, none, none, none, none⟩, some "", some "", some "",
        some "a.txt\nsomedir", some "a.txt\nsomedir", none, none, none, none, none,
        none, none, fun d => d == "somedir"⟩ : DiffOracle).isDir "a.txt" = false :=
  ⟨⟨by decide, by decide⟩,
    detectPotentialConflicts_excludes_directories
      ⟨"feature", "main", ⟨none, none, none, none, none⟩, some "", some "", some "",
        some "a.txt\nsomedir", some "a.txt\nsomedir", none, none, none, none, none,
        none, none, fun d => d == "somedir"⟩
      "a.txt" (by decide) (by decide)⟩

/-- Counterexample to claim C8 as stated: `detectConflictFiles` applies
no directory exclusion.  With a three-dot diff that lists `somedir` — a
path recorded as a directory on disk — and a probe that reports a
create/delete conflict, the result still contains `somedir`. -/
theorem detectConflictFiles_keeps_directory_path :
    (⟨some "somedir", none, none, none,
        fun _ => ⟨false, true, false, none, none, none, none⟩,
        fun d => d == "somedir"⟩ : ConflictFilesOracle).isDir "somedir" = true ∧
    "somedir" ∈ detectConflictFiles
      ⟨some "somedir", none, none, none,
        fun _ => ⟨false, true, false, none, none, none, none⟩,
        fun d => d == "somedir"⟩ := by
  constructor
  · decide
  · decide

theorem selectChanges_all_failed (o : DiffOracle)
    (h1 : o.diffPlainCurrent = none) (h2 : o.diffPlainTarget = none)
    (h3 : o.diffQuotedCurrent = none) (h4 : o.diffQuotedTarget = none)
    (h5 : o.diffShaCurrent = none) (h6 : o.diffShaTarget = none) :
    selectChanges o = (none, none) := by
  unfold selectChanges
  rw [h1, h2, h3, h4, h5, h6]
  split <;> simp [jsTruthy]

theorem selectChanges_all_empty (o : DiffOracle)
    (h1 : o.diffPlainCurrent = some "") (h2 : o.diffPlainTarget = some "")
    (h3 : o.diffQuotedCurrent = some "") (h4 : o.diffQuotedTarget = some "")
    (h5 : o.diffShaCurrent = some "") (h6 : o.diffShaTarget = some "") :
    selectChanges o = (some "", some "") := by
  unfold selectChanges
  rw [h1, h2, h3, h4, h5, h6]
  split <;> simp [jsTruthy]

/-- Claim C2 (amended): on the non-delegated path, the differ returns the
same value — the empty list — both when all three diff attempts error on
both sides and when the diff attempts succeed with no output; no
caller-visible `Failure` value distinguishes "could not determine" from
"no changes" (the distinction exists only in the logs). -/
theorem detectPotentialConflicts_failure_and_empty_agree (o : DiffOracle)
    (hbranch : (o.currentBranch == stripOrigin o.targetBranch) = false) :
    ((o.diffPlainCurrent = none → o.diffPlainTarget = none →
      o.diffQuotedCurrent = none → o.diffQuotedTarget = none →
      o.diffShaCurrent = none → o.diffShaTarget = none →
      detectPotentialConflicts o = []) ∧
     (o.diffPlainCurrent = some "" → o.diffPlainTarget = some "" →
      o.diffQuotedCurrent = some "" → o.diffQuotedTarget = some "" →
      o.diffShaCurrent = some "" → o.diffShaTarget = some "" →
      detectPotentialConflicts o = [])) := by
  constructor
  · intro h1 h2 h3 h4 h5 h6
    unfold detectPotentialConflicts
    rw [hbranch]
    simp only [Bool.false_eq_true, if_false]
    split
    · rfl
    split
    · rfl
    split
    · rfl
    rw [selectChanges_all_failed o h1 h2 h3 h4 h5 h6]
    simp
  · intro h1 h2 h3 h4 h5 h6
    unfold detectPotentialConflicts
    rw [hbranch]
    simp only [Bool.false_eq_true, if_false]
    split
    · rfl
    split
    · rfl
    split
    · rfl
    rw [selectChanges_all_empty o h1 h2 h3 h4 h5 h6]
    simp [jsBlank, trimChars]

/-- Witness for C2's amended theorem at a concrete oracle on which every
diff attempt errors. -/
theorem detectPotentialConflicts_failure_and_empty_agree_witness :
    (((⟨"feature", "main", ⟨none, none, none, none, none⟩, some "", some "", some "",
        none, none, none, none, none, none, none, none, none,
        fun _ => false⟩ : DiffOracle).currentBranch == stripOrigin "main") = false ∧
      detectPotentialConflicts
        ⟨"feature", "main", ⟨none, none, none, none, none⟩, some "", some "", some "",
          none, none, none, none, none, none, none, none, none, fun _ => false⟩ = []) :=
  ⟨by decide,
    (detectPotentialConflicts_failure_and_empty_agree
        ⟨"feature", "main", ⟨none, none, none, none, none⟩, some "", some "", some "",
          none, none, none, none, none, none, none, none, none, fun _ => false⟩
        (by decide)).1 rfl rfl rfl rfl rfl rfl⟩

/-- Counterexample to claim C2 as stated: an oracle on which all three
diff attempts error and an oracle on which the diff succeeds with no
output produce the identical return value `[]` — there is no explicit
`Failure` value a caller could tell apart from the empty change set. -/
theorem detectPotentialConflicts_failure_indistinguishable :
    detectPotentialConflicts
        ⟨"feature", "main", ⟨none, none, none, none, none⟩, some "", some "", some "",
          none, none, none, none, none, none, none, none, none, fun _ => false⟩ = [] ∧
    detectPotentialConflicts
        ⟨"feature", "main", ⟨none, none, none, none, none⟩, some "", some "", some "",
          some "", some "", some "", some "", none, none, none, some "", some "",
          fun _ => false⟩ = [] ∧
    detectPotentialConflicts
        ⟨"feature", "main", ⟨none, none, none, none, none⟩, some "", some "", some "",
          none, none, none, none, none, none, none, none, none, fun _ => false⟩ =
      detectPotentialConflicts
        ⟨"feature", "main", ⟨none, none, none, none, none⟩, some "", some "", some "",
          some "", some "", some "", some "", none, none, none, some "", some "",
          fun _ => false⟩ := by
  refine ⟨by decide, by decide, ?_⟩
  decide

/-!
## LineConflictLocator — `src/conflictDetector.ts`

`analyzeFileConflicts` (lines 148–195) walks the three commit line
sequences positionally, records the first live-document line matching a
diverged current/target line, and `checkConflictForDocument` (lines
276–289) decorates those lines, or the whole document when none were
found.
-/

/-- The per-index divergence test of `analyzeFileConflicts`: the base,
current and target lines at index `i` (empty string where a sequence is
shorter) are pairwise distinct. -/
def divergesAt (baseLines currentLines targetLines : List String) (i : Nat) : Bool :=
  let baseLine := baseLines.getD i ""
  let currentLine := currentLines.getD i ""
  let targetLine := targetLines.getD i ""
  baseLine != currentLine && baseLine != targetLine && currentLine != targetLine

/-- `analyzeFileConflicts` from `src/conflictDetector.ts` (lines
148–195): `none` content means the `git show` invocation failed.  The
inner document scan with `break` is the first index whose trimmed line
equals the trimmed current or target line; `[...new Set(...)]` is the
final deduplication. -/
def analyzeFileConflicts (currentContent targetContent baseContent : Option String)
    (docText : String) : List Nat :=
  if !jsTruthy currentContent || !jsTruthy targetContent || !jsTruthy baseContent then []
  else
    let currentLines := splitLines (currentContent.getD "")
    let targetLines := splitLines (targetContent.getD "")
    let baseLines := splitLines (baseContent.getD "")
    let docLines := splitLines docText
    let maxLines := max (max currentLines.length targetLines.length) baseLines.length
    dedupFirst ((List.range maxLines).filterMap (fun i =>
      if divergesAt baseLines currentLines targetLines i then
        docLines.findIdx? (fun docLine =>
          trimChars docLine == trimChars (currentLines.getD i "") ||
          trimChars docLine == trimChars (targetLines.getD i ""))
      else none))

/-- The decoration step of `checkConflictForDocument`
(`src/conflictDetector.ts`, lines 276–289), as (start line, end line)
pairs: one single-line range per recorded conflict line (clamped to the
document), or one whole-document range when none were recorded. -/
def conflictDecorations (conflictLineNumbers : List Nat) (lineCount : Nat) :
    List (Nat × Nat) :=
  if conflictLineNumbers.length > 0 then
    conflictLineNumbers.map (fun lineNum =>
      (min lineNum (lineCount - 1), min lineNum (lineCount - 1)))
  else [(0, lineCount - 1)]

theorem ite_none_eq_some {α : Type} {c : Prop} [Decidable c] {x : Option α} {b : α} :
    (if c then x else none) = some b ↔ c ∧ x = some b := by
  by_cases h : c <;> simp [h]

/-- Claim C7: (1) an index is a divergence point exactly when the base,
current and target lines there are pairwise distinct (empty string
beyond a sequence's length); (2) a line number is recorded exactly when
some divergence point below the maximum of the three lengths matches it
in the live document; (3) when no divergence point yields a document
match the decoration step falls back to one whole-document range. -/
theorem analyzeFileConflicts_divergence_and_fallback
    (currentContent targetContent baseContent : Option String) (docText : String)
    (lineCount : Nat)
    (hc : jsTruthy currentContent = true) (ht : jsTruthy targetContent = true)
    (hb : jsTruthy baseContent = true) :
    (∀ (bl cl tl : List String) (i : Nat),
      divergesAt bl cl tl i = true ↔
        (bl.getD i "" ≠ cl.getD i "" ∧ bl.getD i "" ≠ tl.getD i "" ∧
          cl.getD i "" ≠ tl.getD i "")) ∧
    (∀ j : Nat,
      j ∈ analyzeFileConflicts currentContent targetContent baseContent docText ↔
        ∃ i : Nat,
          i < max (max (splitLines (currentContent.getD "")).length
              (splitLines (targetContent.getD "")).length)
              (splitLines (baseContent.getD "")).length ∧
          divergesAt (splitLines (baseContent.getD ""))
            (splitLines (currentContent.getD ""))
            (splitLines (targetContent.getD "")) i = true ∧
          (splitLines docText).findIdx? (fun docLine =>
            trimChars docLine == trimChars ((splitLines (currentContent.getD "")).getD i "") ||
            trimChars docLine == trimChars ((splitLines (targetContent.getD "")).getD i ""))
            = some j) ∧
    (analyzeFileConflicts currentContent targetContent baseContent docText = [] →
      conflictDecorations
        (analyzeFileConflicts currentContent targetContent baseContent docText)
        lineCount = [(0, lineCount - 1)]) := by
  refine ⟨?_, ?_, ?_⟩
  · intro bl cl tl i
    simp [divergesAt, Bool.and_eq_true, bne_iff_ne, and_assoc]
  · intro j
    unfold analyzeFileConflicts
    rw [hc, ht, hb]
    simp only [Bool.not_true, Bool.false_or, Bool.or_self, Bool.false_eq_true, if_false]
    rw [mem_dedupFirst, List.mem_filterMap]
    constructor
    · rintro ⟨i, hi, he⟩
      rw [List.mem_range] at hi
      rw [ite_none_eq_some] at he
      exact ⟨i, hi, he.1, he.2⟩
    · rintro ⟨i, hi, hd, he⟩
      refine ⟨i, List.mem_range.mpr hi, ?_⟩
      rw [ite_none_eq_some]
      exact ⟨hd, he⟩
  · intro h
    rw [h]
    simp [conflictDecorations]

/-- Witness for C7 at concrete contents (base "0", current "1",
target "2", live document "x") and a five-line document: the hypotheses
hold and the fallback marks lines 0–4. -/
theorem analyzeFileConflicts_divergence_and_fallback_witness :
    (jsTruthy (some "1") = true ∧ jsTruthy (some "2") = true ∧
      jsTruthy (some "0") = true) ∧
    (analyzeFileConflicts (some "1") (some "2") (some "0") "x" = [] →
      conflictDecorations (analyzeFileConflicts (some "1") (some "2") (some "0") "x") 5 =
        [(0, 4)]) :=
  ⟨⟨by decide, by decide, by decide⟩,
    (analyzeFileConflicts_divergence_and_fallback (some "1") (some "2") (some "0") "x" 5
      (by decide) (by decide) (by decide)).2.2⟩

/-!
## Scan scheduling — `watchWorkspace` (`src/conflictDetector.ts`, lines 322–371)

The watcher registers `onDidChange` and `onDidCreate` handlers that open
the changed document and invoke `checkConflictForDocument(doc,
wsFolderPath, targetBranch)` — unconditionally, once per event.  The
function keeps no record of an in-flight scan per (document, target
branch) key, so nothing prevents overlapping events from each starting
their own scan.
-/

/-- The scan invocations issued by `watchWorkspace`'s change handlers for
a sequence of watcher events (document URIs): one
`checkConflictForDocument(uri, wsFolderPath, targetBranch)` call per
event, with no in-flight bookkeeping consulted. -/
def watchWorkspaceDispatch (wsFolderPath targetBranch : String) (events : List String) :
    List (String × String × String) :=
  events.map (fun uri => (uri, wsFolderPath, targetBranch))

/-- Claim C9 (divergence evidence): three change events for the same
(document, target-branch) pair — e.g. arriving while the first scan is
still in flight — yield three scan invocations, one per event, not the
two (initial plus single coalesced trailing rerun) the claim requires. -/
theorem watchWorkspace_no_coalescing :
    watchWorkspaceDispatch "/ws" "main" ["a.ts", "a.ts", "a.ts"] =
      [("a.ts", "/ws", "main"), ("a.ts", "/ws", "main"), ("a.ts", "/ws", "main")] ∧
    (watchWorkspaceDispatch "/ws" "main" ["a.ts", "a.ts", "a.ts"]).length = 3 := by
  exact ⟨rfl, rfl⟩
